import Mathlib

/-!
Verification development for the worktracker repository.

The repository ships `cli.py` and `homeassistant.py` under `src/worktracker/`;
the modules `database.py`, `tracker.py`, `mqtt_client.py`, `mqtt_config.py`
and `service.py` are referenced by `cli.py` but their code is not in the
source tree, so the Store, AccrualEngine and Publisher internals are modelled
from the specification where noted.  Timestamps and durations are natural
numbers of seconds; calendar dates are natural-number ordinals.
-/

/-- One persisted row per calendar date: the date key, the running
`total_active_time` in seconds, and the timestamp of the last accrual write. -/
structure DailyLog where
  date : Nat
  total_active_time : Nat
  last_update : Nat
  deriving Repr, DecidableEq

/-- The Store's persisted state: the list of daily rows (at most one per date;
lookups read the first row with a matching date). -/
def Store : Type := List DailyLog

/-- Errors signalled by the Store.  `decreasingTotal` is the logic error for an
upsert that would decrease a persisted total. -/
inductive StoreError where
  | decreasingTotal
  deriving Repr, DecidableEq

/-- Read access for a specific date: the first row whose date matches. -/
def get_log (s : Store) (d : Nat) : Option DailyLog :=
  List.find? (fun l => l.date = d) s

/-- The total persisted for date `d` (0 if no row exists). -/
def getTotal (s : Store) (d : Nat) : Nat :=
  match get_log s d with
  | some l => l.total_active_time
  | none => 0

/-- Overwrite the row for date `d` with the given total and last-update time. -/
def setLog (s : Store) (d total lu : Nat) : Store :=
  List.map (fun l => if l.date = d then ⟨d, total, lu⟩ else l) s

/-- Modelled from the spec: `Database.get_today` (database.py is not in src).
Returns the row for the current date, atomically creating a zero-valued row if
absent; a freshly created row's `last_update` is the current time, so the
elapsed delta on the creating tick is 0. -/
def get_today (s : Store) (today now : Nat) : DailyLog × Store :=
  match get_log s today with
  | some l => (l, s)
  | none => (⟨today, 0, now⟩, ⟨today, 0, now⟩ :: s)

/-- Modelled from the spec: `Database.upsert_today` (database.py is not in
src).  Atomically writes the new total for the current date, creating the row
if necessary; never decreases the stored total — an attempted decrease is a
logic error signalled to the caller, not applied. -/
def upsert_today (s : Store) (today total lu : Nat) : Except StoreError Store :=
  match get_log s today with
  | some l =>
      if total < l.total_active_time then Except.error StoreError.decreasingTotal
      else Except.ok (setLog s today total lu)
  | none => Except.ok (⟨today, total, lu⟩ :: s)

/-- AccrualEngine policy constants: the idle threshold (seconds of idle time
below which the session counts as active) and the clamp bound on one tick's
elapsed delta. -/
structure Config where
  idle_threshold : Nat
  max_tick_gap : Nat
  deriving Repr, DecidableEq

/-- The per-tick Active/Idle decision: active when the sampled idle duration
is below the threshold; a failed idle-source query (`none`) degrades to Idle
(fail-safe: never guess activity). -/
def isActive (cfg : Config) (sample : Option Nat) : Bool :=
  match sample with
  | some idle => idle < cfg.idle_threshold
  | none => false

/-- Modelled from the spec: `WorkTracker.update_time` (tracker.py is not in
src).  One accrual tick: sample the idle source (`none` means the query
failed, which degrades to Idle), read or create today's row, clamp the elapsed
delta to `[0, max_tick_gap]` (natural subtraction already clamps below at 0),
accrue the delta only when active, and upsert.  Returns the updated store and
the total just written. -/
def update (cfg : Config) (s : Store) (today now : Nat) (sample : Option Nat) :
    Except StoreError (Store × Nat) :=
  let active := isActive cfg sample
  let p := get_today s today now
  let elapsed := min (now - p.1.last_update) cfg.max_tick_gap
  let new_total :=
    if active then p.1.total_active_time + elapsed else p.1.total_active_time
  match upsert_today p.2 today new_total now with
  | Except.ok s2 => Except.ok (s2, new_total)
  | Except.error e => Except.error e

/-- The value returned by status queries and carried by published payloads. -/
structure StatusSnapshot where
  status_label : String
  total_active_seconds : Nat
  last_update : Nat
  deriving Repr, DecidableEq

/-- Modelled from the spec: `WorkTracker.get_current_status` (tracker.py is
not in src).  The read path: sample the idle source live, read today's row,
and return a snapshot; it calls no write operation of the Store. -/
def status (cfg : Config) (s : Store) (today : Nat) (sample : Option Nat) :
    StatusSnapshot :=
  let active := isActive cfg sample
  let log := (get_log s today).getD ⟨today, 0, 0⟩
  ⟨if active then "active" else "idle", log.total_active_time, log.last_update⟩

/-- A status invocation with the store threaded through explicitly: the spec's
read path returns the snapshot and leaves the store exactly as read. -/
def statusSt (cfg : Config) (today : Nat) (sample : Option Nat) (s : Store) :
    StatusSnapshot × Store :=
  (status cfg s today sample, s)

/-- One scheduler tick: the local date at call time, the wall-clock time, and
the idle sample (`none` when the idle source query fails). -/
def Tick : Type := Nat × Nat × Option Nat

/-- Run a finite sequence of ticks; a tick whose write is rejected leaves the
store unchanged (the failed tick is simply retried by the next one). -/
def runTicks (cfg : Config) (s : Store) : List Tick → Store
  | [] => s
  | t :: ts =>
      match update cfg s t.1 t.2.1 t.2.2 with
      | Except.ok p => runTicks cfg p.1 ts
      | Except.error _ => runTicks cfg s ts

/-- The amount one tick adds on top of the stored total: the clamped elapsed
time when the tick is Active, 0 when Idle. -/
def tickDelta (cfg : Config) (l : DailyLog) (now : Nat) (sample : Option Nat) : Nat :=
  if isActive cfg sample then min (now - l.last_update) cfg.max_tick_gap else 0

/-- Sum of the elapsed deltas of a sequence of tick times, starting from a
previous last-update time `t0`. -/
def deltaSum (t0 : Nat) : List Nat → Nat
  | [] => 0
  | t :: ts => (t - t0) + deltaSum t ts

/-- Normal cadence: each tick time is no earlier than the previous last-update
time and at most `gap` seconds after it. -/
def cadence (gap t0 : Nat) : List Nat → Bool
  | [] => true
  | t :: ts => decide (t0 ≤ t) && decide (t - t0 ≤ gap) && cadence gap t ts

/-- A sequence of Active ticks on a fixed date `d`, all with the same sampled
idle duration. -/
def activeTicks (d idle : Nat) (times : List Nat) : List Tick :=
  List.map (fun t => (d, t, some idle)) times

/-- A finite sequence of status invocations with the store threaded through:
returns all snapshots and the final store. -/
def runStatusList (cfg : Config) (today : Nat) (samples : List (Option Nat))
    (s : Store) : List StatusSnapshot × Store :=
  match samples with
  | [] => ([], s)
  | q :: qs =>
      let r := statusSt cfg today q s
      let rest := runStatusList cfg today qs r.2
      (r.1 :: rest.1, rest.2)

-- The CLI layer, embedded from src/worktracker/cli.py (present in src).
-- Calls into the missing modules are modelled as explicit outcome parameters:
-- an `Except` value stands for "the call returned normally / raised".

/-- `WorkTrackerCLI.update` (cli.py lines 218-238): run `tracker.update_time()`;
return exit code 0 if it completes, else log `Update error: <cause>` and
return 1.  The parameter is the outcome of `update_time`. -/
def cli_update (r : Except String Unit) : Nat × List String :=
  match r with
  | Except.ok _ => (0, [])
  | Except.error e => (1, ["Update error: " ++ e])

/-- `WorkTrackerCLI.status` (cli.py lines 172-216) exit-code behaviour: 1 when
the timer is not installed; otherwise 1 when `tracker.get_current_status()` or
the Store read (`db.get_today_log()`) raises, and 0 when both succeed.  The
`Except` parameters are the outcomes of those two calls. -/
def cli_status (timerInstalled : Bool) (trackerR : Except String (String × Nat))
    (dbR : Except String DailyLog) : Nat :=
  if timerInstalled = false then 1
  else
    match trackerR with
    | Except.error _ => 1
    | Except.ok _ =>
        match dbR with
        | Except.error _ => 1
        | Except.ok _ => 0

/-- Zero-padding to two digits, as Python's `{n:02d}` format for a
non-negative integer. -/
def pad2 (n : Nat) : String :=
  if n < 10 then "0" ++ toString n else toString n

/-- The summary lines printed by `WorkTrackerCLI.status` (cli.py lines
200-210): hours and minutes computed by integer division from
`total_active_time`, and `last_update` rendered in hour:minute form. -/
def statusSummary (T lastH lastM : Nat) : List String :=
  ["  Total active time: " ++ pad2 (T / 3600) ++ ":" ++ pad2 (T % 3600 / 60),
   "  Last update: " ++ pad2 lastH ++ ":" ++ pad2 lastM]

-- The MQTT commands, embedded from src/worktracker/cli.py lines 240-350.
-- `load_config` (mqtt_config.py, not in src) can raise FileNotFoundError or
-- ValueError; its outcome is the `Except` parameter.  Broker interactions are
-- recorded as an event trace.

/-- A configuration-loading failure: missing file or malformed/out-of-range
value, as distinguished by the two `except` arms in cli.py. -/
inductive ConfigError where
  | fileNotFound (msg : String)
  | invalidValue (msg : String)
  deriving Repr, DecidableEq

/-- The validated MQTT publisher configuration, with the fields cli.py reads:
broker address, port, topic prefix, update interval and quality of service. -/
structure PublishConfig where
  broker_ip : String
  port : Nat
  topic_prefix : String
  update_interval : Nat
  qos : Nat

/-- Broker interactions performed by a CLI command, in order. -/
inductive MqttEvent where
  | connectAttempt
  | publishMsg
  | disconnect
  deriving Repr, DecidableEq

/-- The one-line fatal report cli.py prints for each configuration error. -/
def errLine : ConfigError → String
  | ConfigError.fileNotFound m => "ERROR: " ++ m
  | ConfigError.invalidValue m => "ERROR: Invalid configuration: " ++ m

/-- `WorkTrackerCLI.mqtt_start` (cli.py lines 240-283): load the
configuration; on failure report and exit 1 before constructing the client;
otherwise `client.start()` attempts the broker connection (exit 1 if it
fails, 0 when the daemon loop later terminates). -/
def mqtt_start (cfgR : Except ConfigError PublishConfig) (startOk : Bool) :
    Nat × List MqttEvent × List String :=
  match cfgR with
  | Except.error e => (1, [], ["Starting MQTT publisher...", errLine e])
  | Except.ok _ =>
      if startOk then
        (0, [MqttEvent.connectAttempt],
          ["Starting MQTT publisher...", "✓ MQTT publisher started"])
      else
        (1, [MqttEvent.connectAttempt],
          ["Starting MQTT publisher...", "ERROR: Failed to start MQTT publisher"])

/-- The configuration lines `WorkTrackerCLI.mqtt_status` prints (cli.py lines
304-308). -/
def renderConfig : PublishConfig → List String
  | ⟨b, p, tp, ui, q⟩ =>
      ["MQTT Configuration:",
       "  Broker: " ++ b ++ ":" ++ toString p,
       "  Topic prefix: " ++ tp,
       "  Update interval: " ++ toString ui ++ "s",
       "  QoS: " ++ toString q]

/-- `WorkTrackerCLI.mqtt_status` (cli.py lines 296-317): load and render the
configuration; never constructs a client nor touches the broker. -/
def mqtt_status (cfgR : Except ConfigError PublishConfig) :
    Nat × List MqttEvent × List String :=
  match cfgR with
  | Except.error e => (1, [], [errLine e])
  | Except.ok c => (0, [], renderConfig c)

/-- `WorkTrackerCLI.mqtt_publish` (cli.py lines 319-350): load the
configuration (failure is fatal before any connection), then connect; on
connect failure exit 1 without publishing; otherwise publish once and
disconnect on both the success and the failure branch, exiting 0 exactly when
the publish succeeded. -/
def mqtt_publish (cfgR : Except ConfigError PublishConfig)
    (connectOk pubOk : Bool) : Nat × List MqttEvent × List String :=
  match cfgR with
  | Except.error e => (1, [], ["Publishing status to MQTT broker...", errLine e])
  | Except.ok _ =>
      if connectOk = false then
        (1, [MqttEvent.connectAttempt],
          ["Publishing status to MQTT broker...",
            "ERROR: Failed to connect to MQTT broker"])
      else if pubOk then
        (0, [MqttEvent.connectAttempt, MqttEvent.publishMsg, MqttEvent.disconnect],
          ["Publishing status to MQTT broker...", "✓ Status published successfully"])
      else
        (1, [MqttEvent.connectAttempt, MqttEvent.publishMsg, MqttEvent.disconnect],
          ["Publishing status to MQTT broker...", "ERROR: Failed to publish status"])

-- Home Assistant YAML generation, embedded from
-- src/worktracker/homeassistant.py, and the published-status topic.

/-- Modelled from the spec: the topic `MQTTClient.publish_status` publishes to
(mqtt_client.py is not in src): `"{topic_prefix}/{host_identifier}/status"`,
from the configured topic prefix and the host identifier. -/
def statusTopic (tp host : String) : String :=
  tp ++ "/" ++ host ++ "/status"

/-- The sensor unique id embedded in the generated YAML
(homeassistant.py line 28). -/
def ha_unique_id (h : String) : String :=
  "worktracker_" ++ h ++ "_daily_time"

/-- The state topic embedded in the generated YAML (homeassistant.py line 29):
the literal prefix `worktracker`, not the configured topic prefix. -/
def ha_state_topic (h : String) : String :=
  "worktracker/" ++ h ++ "/status"

/-- The generated YAML before the unique id. -/
def yamlSeg0 : String := "mqtt:\n  sensor:\n    # Daily Total Active Time (formatted as hours:minutes)\n    - name: \"WorkTracker Daily Time\"\n      unique_id: \""

/-- The generated YAML between the unique id and the state topic. -/
def yamlSeg1 : String := "\"\n      state_topic: \""

/-- The generated YAML between the state topic and the device identifier,
holding the value template (rendered braces written as escapes). -/
def yamlSeg2 : String := "\"\n      value_template: >\n        \x7b% set total_seconds = value_json.total_time | int %\x7d\n        \x7b% set hours = (total_seconds / 3600) | int %\x7d\n        \x7b% set minutes = ((total_seconds % 3600) / 60) | int %\x7d\n        \x7b% if hours > 0 %\x7d\x7b\x7b hours \x7d\x7dh \x7b% if minutes > 0 %\x7d\x7b\x7b minutes \x7d\x7dm\x7b% endif %\x7d\x7b% else %\x7d\x7b\x7b minutes \x7d\x7dm\x7b% endif %\x7d\n      icon: \"mdi:clock-outline\"\n      device:\n        identifiers:\n          - \"worktracker_"

/-- The generated YAML between the device identifier and the device name. -/
def yamlSeg3 : String := "\"\n        name: \"WorkTracker - "

/-- The generated YAML after the device name. -/
def yamlSeg4 : String := "\"\n        manufacturer: \"WorkTracker\"\n        model: \"WorkTracker\"\n"

/-- `generate_yaml_config` (homeassistant.py lines 7-44): the complete YAML
with the hostname filled in; `socket.gethostname()` is the explicit
`ambientHostname` parameter, consulted only when the argument is `None`. -/
def generate_yaml_config (ambientHostname : String) (hostname : Option String) :
    String :=
  let h := match hostname with
    | some hn => hn
    | none => ambientHostname
  yamlSeg0 ++ ha_unique_id h ++ yamlSeg1 ++ ha_state_topic h ++ yamlSeg2 ++ h ++
    yamlSeg3 ++ h ++ yamlSeg4

/-- `sub` occurs contiguously inside `s`. -/
def containsSub (s sub : String) : Prop :=
  ∃ pre post, s = pre ++ sub ++ post

-- Basic lemmas about the Store operations.

theorem get_log_setLog_self (s : Store) (d total lu : Nat)
    (h : ∃ l, get_log s d = some l) :
    get_log (setLog s d total lu) d = some ⟨d, total, lu⟩ := by
  induction s with
  | nil => simp [get_log] at h
  | cons a as ih =>
      by_cases ha : a.date = d
      · show List.find? _ ((if a.date = d then _ else a) :: _) = _
        rw [if_pos ha]
        exact List.find?_cons_of_pos _ (by simp)
      · have h' : ∃ l, get_log as d = some l := by
          rcases h with ⟨l, hl⟩
          unfold get_log at hl
          rw [List.find?_cons_of_neg _ (by simp [ha])] at hl
          exact ⟨l, hl⟩
        have step : setLog (a :: as) d total lu = a :: setLog as d total lu := by
          simp [setLog, ha]
        unfold get_log
        rw [step, List.find?_cons_of_neg _ (by simp [ha])]
        exact ih h'

theorem get_log_setLog_other (s : Store) (d d' total lu : Nat) (hne : d' ≠ d) :
    get_log (setLog s d total lu) d' = get_log s d' := by
  induction s with
  | nil => rfl
  | cons a as ih =>
      by_cases ha : a.date = d
      · have step : setLog (a :: as) d total lu =
            (⟨d, total, lu⟩ : DailyLog) :: setLog as d total lu := by
          simp [setLog, ha]
        unfold get_log
        rw [step, List.find?_cons_of_neg _ (by simp; exact fun h => hne h.symm),
          List.find?_cons_of_neg _ (by simp [ha]; exact fun h => hne h.symm)]
        exact ih
      · have step : setLog (a :: as) d total lu = a :: setLog as d total lu := by
          simp [setLog, ha]
        by_cases hb : a.date = d'
        · unfold get_log
          rw [step, List.find?_cons_of_pos _ (by simp [hb]),
            List.find?_cons_of_pos _ (by simp [hb])]
        · unfold get_log
          rw [step, List.find?_cons_of_neg _ (by simp [hb]),
            List.find?_cons_of_neg _ (by simp [hb])]
          exact ih

theorem setLog_not_found (s : Store) (d total lu : Nat)
    (hfind : get_log s d = none) : setLog s d total lu = s := by
  induction s with
  | nil => rfl
  | cons a as ih =>
      by_cases ha : a.date = d
      · unfold get_log at hfind
        rw [List.find?_cons_of_pos _ (by simp [ha])] at hfind
        exact absurd hfind (by simp)
      · unfold get_log at hfind
        rw [List.find?_cons_of_neg _ (by simp [ha])] at hfind
        simp only [setLog, List.map_cons, if_neg ha]
        exact congrArg (a :: ·) (ih hfind)

theorem update_found (cfg : Config) (s : Store) (d n : Nat) (q : Option Nat)
    (l : DailyLog) (hfind : get_log s d = some l) :
    update cfg s d n q = Except.ok
      (setLog s d (l.total_active_time + tickDelta cfg l n q) n,
        l.total_active_time + tickDelta cfg l n q) := by
  have hkey : (if isActive cfg q then
        l.total_active_time + min (n - l.last_update) cfg.max_tick_gap
      else l.total_active_time) = l.total_active_time + tickDelta cfg l n q := by
    cases hA : isActive cfg q <;> simp [tickDelta, hA]
  simp only [update, get_today, hfind, upsert_today, hkey]
  rw [if_neg (Nat.not_lt.mpr (Nat.le_add_right _ _))]

theorem update_missing (cfg : Config) (s : Store) (d n : Nat) (q : Option Nat)
    (hfind : get_log s d = none) :
    update cfg s d n q = Except.ok ((⟨d, 0, n⟩ : DailyLog) :: s, 0) := by
  have hcons : get_log ((⟨d, 0, n⟩ : DailyLog) :: s) d = some ⟨d, 0, n⟩ := by
    unfold get_log
    exact List.find?_cons_of_pos _ (by simp)
  have h2 : setLog ((⟨d, 0, n⟩ : DailyLog) :: s) d 0 n = (⟨d, 0, n⟩ : DailyLog) :: s := by
    simp only [setLog, List.map_cons, ite_self]
    exact congrArg (List.cons _) (setLog_not_found s d 0 n hfind)
  simp only [update, get_today, hfind, upsert_today, hcons, Nat.sub_self, Nat.zero_min,
    Nat.add_zero, ite_self, Nat.lt_irrefl, if_false, h2]

theorem update_getTotal_mono (cfg : Config) (s : Store) (d n : Nat)
    (q : Option Nat) (p : Store × Nat)
    (h : update cfg s d n q = Except.ok p) (d0 : Nat) :
    getTotal s d0 ≤ getTotal p.1 d0 := by
  cases hfind : get_log s d with
  | some l =>
      rw [update_found cfg s d n q l hfind] at h
      cases h
      by_cases hd : d0 = d
      · subst hd
        unfold getTotal
        rw [get_log_setLog_self s d0 _ _ ⟨l, hfind⟩, hfind]
        exact Nat.le_add_right _ _
      · unfold getTotal
        rw [get_log_setLog_other s d d0 _ _ hd]
  | none =>
      rw [update_missing cfg s d n q hfind] at h
      cases h
      by_cases hd : d0 = d
      · subst hd
        unfold getTotal
        rw [hfind]
        exact Nat.zero_le _
      · unfold getTotal
        have : get_log ((⟨d, 0, n⟩ : DailyLog) :: s) d0 = get_log s d0 := by
          unfold get_log
          exact List.find?_cons_of_neg _ (by simp; exact fun h => hd h.symm)
        rw [this]

theorem runTicks_getTotal_mono (cfg : Config) (ts : List Tick) (s : Store)
    (d0 : Nat) : getTotal s d0 ≤ getTotal (runTicks cfg s ts) d0 := by
  induction ts generalizing s with
  | nil => exact Nat.le_refl _
  | cons t ts ih =>
      unfold runTicks
      cases hu : update cfg s t.1 t.2.1 t.2.2 with
      | ok p => exact Nat.le_trans (update_getTotal_mono cfg s t.1 t.2.1 t.2.2 p hu d0) (ih p.1)
      | error e => exact ih s

theorem runTicks_cons (cfg : Config) (t : Tick) (ts : List Tick) (s : Store) :
    runTicks cfg s (t :: ts) =
      match update cfg s t.1 t.2.1 t.2.2 with
      | Except.ok p => runTicks cfg p.1 ts
      | Except.error _ => runTicks cfg s ts := rfl

theorem runTicks_append (cfg : Config) (l1 l2 : List Tick) (s : Store) :
    runTicks cfg s (l1 ++ l2) = runTicks cfg (runTicks cfg s l1) l2 := by
  induction l1 generalizing s with
  | nil => rfl
  | cons t ts ih =>
      rw [List.cons_append, runTicks_cons, runTicks_cons]
      cases hu : update cfg s t.1 t.2.1 t.2.2 with
      | ok p => exact ih p.1
      | error e => exact ih s

/-- C1: over any finite sequence of ticks the persisted total for a fixed date
never decreases between two reads (every prefix's total is bounded by every
longer prefix's total), and an `upsert_today` call that attempts to write a
total smaller than the stored total for that date signals
`StoreError.decreasingTotal` to the caller instead of applying the write. -/
theorem total_active_time_monotone :
    (∀ (cfg : Config) (s : Store) (d : Nat) (pre post : List Tick),
        getTotal (runTicks cfg s pre) d ≤ getTotal (runTicks cfg s (pre ++ post)) d) ∧
    (∀ (s : Store) (d total lu : Nat) (l : DailyLog),
        get_log s d = some l → total < l.total_active_time →
        upsert_today s d total lu = Except.error StoreError.decreasingTotal) := by
  constructor
  · intro cfg s d pre post
    rw [runTicks_append]
    exact runTicks_getTotal_mono cfg post (runTicks cfg s pre) d
  · intro s d total lu l hfind hlt
    simp only [upsert_today, hfind]
    rw [if_pos hlt]

/-- Witness for C1 at concrete inputs: one Active tick then one more tick on
date 5, and a decreasing upsert rejected on a store holding total 10. -/
theorem total_active_time_monotone_witness :
    getTotal (runTicks ⟨300, 120⟩ [⟨5, 10, 100⟩] [(5, 160, some 0)]) 5 ≤
      getTotal (runTicks ⟨300, 120⟩ [⟨5, 10, 100⟩]
        ([(5, 160, some 0)] ++ [(5, 220, some 0)])) 5 ∧
    upsert_today [⟨5, 10, 100⟩] 5 3 200 = Except.error StoreError.decreasingTotal :=
  ⟨total_active_time_monotone.1 ⟨300, 120⟩ [⟨5, 10, 100⟩] 5 [(5, 160, some 0)]
      [(5, 220, some 0)],
    total_active_time_monotone.2 [⟨5, 10, 100⟩] 5 3 200 ⟨5, 10, 100⟩ (by decide)
      (by decide)⟩

theorem tickDelta_le_gap (cfg : Config) (l : DailyLog) (n : Nat)
    (q : Option Nat) : tickDelta cfg l n q ≤ cfg.max_tick_gap := by
  unfold tickDelta
  cases isActive cfg q
  · simp
  · simp [Nat.min_le_right]

theorem linear_accrual_aux (cfg : Config) (d idle : Nat)
    (hidle : idle < cfg.idle_threshold) (times : List Nat) :
    ∀ (s : Store) (T0 t0 : Nat), get_log s d = some ⟨d, T0, t0⟩ →
      cadence cfg.max_tick_gap t0 times = true →
      getTotal (runTicks cfg s (activeTicks d idle times)) d = T0 + deltaSum t0 times := by
  induction times with
  | nil =>
      intro s T0 t0 hfind _
      simp [activeTicks, runTicks, getTotal, hfind, deltaSum]
  | cons t ts ih =>
      intro s T0 t0 hfind hcad
      have hc : t0 ≤ t ∧ t - t0 ≤ cfg.max_tick_gap ∧
          cadence cfg.max_tick_gap t ts = true := by
        simpa [cadence, Bool.and_eq_true, and_assoc] using hcad
      have hdelta : tickDelta cfg ⟨d, T0, t0⟩ t (some idle) = t - t0 := by
        simp [tickDelta, isActive, hidle, Nat.min_eq_left hc.2.1]
      have hu : update cfg s d t (some idle) =
          Except.ok (setLog s d (T0 + (t - t0)) t, T0 + (t - t0)) := by
        have := update_found cfg s d t (some idle) ⟨d, T0, t0⟩ hfind
        rw [hdelta] at this
        exact this
      have hfind' : get_log (setLog s d (T0 + (t - t0)) t) d =
          some ⟨d, T0 + (t - t0), t⟩ :=
        get_log_setLog_self s d _ _ ⟨_, hfind⟩
      have hrun : runTicks cfg s (activeTicks d idle (t :: ts)) =
          runTicks cfg (setLog s d (T0 + (t - t0)) t) (activeTicks d idle ts) := by
        show runTicks cfg s ((d, t, some idle) :: activeTicks d idle ts) = _
        rw [runTicks_cons, hu]
      rw [hrun, ih _ _ _ hfind' hc.2.2, deltaSum, Nat.add_assoc]

/-- C2: (clamping) a tick whose true gap `now - last_update` exceeds
`max_tick_gap` writes a total at most `max_tick_gap` above the stored total,
whatever the gap size; and (linear accrual) N consecutive Active ticks each at
most `max_tick_gap` apart, starting from stored total `T0`, end with total
exactly `T0` plus the sum of the elapsed deltas. -/
theorem gap_clamping_and_linear_accrual :
    (∀ (cfg : Config) (s : Store) (d n : Nat) (q : Option Nat) (l : DailyLog)
        (p : Store × Nat), get_log s d = some l →
        cfg.max_tick_gap < n - l.last_update →
        update cfg s d n q = Except.ok p →
        p.2 ≤ l.total_active_time + cfg.max_tick_gap ∧
        getTotal p.1 d ≤ getTotal s d + cfg.max_tick_gap) ∧
    (∀ (cfg : Config) (d idle : Nat) (times : List Nat) (s : Store) (T0 t0 : Nat),
        idle < cfg.idle_threshold → get_log s d = some ⟨d, T0, t0⟩ →
        cadence cfg.max_tick_gap t0 times = true →
        getTotal (runTicks cfg s (activeTicks d idle times)) d =
          T0 + deltaSum t0 times) := by
  constructor
  · intro cfg s d n q l p hfind _ hu
    rw [update_found cfg s d n q l hfind] at hu
    cases hu
    refine ⟨Nat.add_le_add_left (tickDelta_le_gap cfg l n q) _, ?_⟩
    show getTotal (setLog s d _ n) d ≤ getTotal s d + cfg.max_tick_gap
    unfold getTotal
    rw [get_log_setLog_self s d _ _ ⟨l, hfind⟩, hfind]
    exact Nat.add_le_add_left (tickDelta_le_gap cfg l n q) _
  · intro cfg d idle times s T0 t0 hidle hfind hcad
    exact linear_accrual_aux cfg d idle hidle times s T0 t0 hfind hcad

/-- Witness for C2 at concrete inputs: a two-hour gap with a 120 s clamp adds
at most 120 s (spec scenario 4), and three Active ticks 60 s apart from total
0 accrue exactly 180 s. -/
theorem gap_clamping_and_linear_accrual_witness :
    (((⟨5, 220, 43200⟩ : DailyLog) :: [], 220) : Store × Nat).2 ≤ 100 + 120 ∧
    getTotal ((((⟨5, 220, 43200⟩ : DailyLog) :: [], 220) : Store × Nat)).1 5 ≤
      getTotal ((⟨5, 100, 36000⟩ : DailyLog) :: []) 5 + 120 ∧
    getTotal (runTicks ⟨300, 120⟩ ((⟨5, 0, 0⟩ : DailyLog) :: [])
      (activeTicks 5 0 [60, 120, 180])) 5 = 0 + deltaSum 0 [60, 120, 180] := by
  refine ⟨?_, ?_, ?_⟩
  · exact (gap_clamping_and_linear_accrual.1 ⟨300, 120⟩
      ((⟨5, 100, 36000⟩ : DailyLog) :: []) 5 43200 (some 0) ⟨5, 100, 36000⟩
      ((⟨5, 220, 43200⟩ : DailyLog) :: [], 220) rfl (by decide) rfl).1
  · exact (gap_clamping_and_linear_accrual.1 ⟨300, 120⟩
      ((⟨5, 100, 36000⟩ : DailyLog) :: []) 5 43200 (some 0) ⟨5, 100, 36000⟩
      ((⟨5, 220, 43200⟩ : DailyLog) :: [], 220) rfl (by decide) rfl).2
  · exact gap_clamping_and_linear_accrual.2 ⟨300, 120⟩ 5 0 [60, 120, 180]
      ((⟨5, 0, 0⟩ : DailyLog) :: []) 0 0 (by decide) rfl (by decide)

theorem get_log_after_update (cfg : Config) (s : Store) (d n : Nat)
    (q : Option Nat) (p : Store × Nat)
    (h : update cfg s d n q = Except.ok p) :
    get_log p.1 d = some ⟨d, p.2, n⟩ := by
  cases hfind : get_log s d with
  | some l =>
      rw [update_found cfg s d n q l hfind] at h
      cases h
      exact get_log_setLog_self s d _ _ ⟨l, hfind⟩
  | none =>
      rw [update_missing cfg s d n q hfind] at h
      cases h
      unfold get_log
      exact List.find?_cons_of_pos _ (by simp)

theorem runStatusList_store_id (cfg : Config) (today : Nat)
    (samples : List (Option Nat)) (s : Store) :
    (runStatusList cfg today samples s).2 = s := by
  induction samples with
  | nil => rfl
  | cons q qs ih => exact ih

/-- C3: status queries are read-only — any number of `status()` calls made
after an `update()` leave the store exactly as the update left it (every
persisted row unchanged), and each returned snapshot carries the same
`total_active_time`, equal to the total the update wrote. -/
theorem status_read_only (cfg : Config) (s : Store) (today now : Nat)
    (sample : Option Nat) (p : Store × Nat)
    (h : update cfg s today now sample = Except.ok p)
    (samples : List (Option Nat)) :
    (runStatusList cfg today samples p.1).2 = p.1 ∧
    ∀ snap ∈ (runStatusList cfg today samples p.1).1,
      snap.total_active_seconds = p.2 := by
  refine ⟨runStatusList_store_id cfg today samples p.1, ?_⟩
  have hlog := get_log_after_update cfg s today now sample p h
  induction samples with
  | nil => intro snap hsnap; simp [runStatusList] at hsnap
  | cons q qs ih =>
      intro snap hsnap
      cases hsnap with
      | head => simp [statusSt, status, hlog]
      | tail _ htail => exact ih snap htail

/-- Witness for C3 at concrete inputs: after one Active tick writing total 70,
two status calls (one with a failed idle query) leave the store unchanged and
both report 70. -/
theorem status_read_only_witness :
    (runStatusList ⟨300, 120⟩ 5 [some 0, none]
        ((⟨5, 70, 160⟩ : DailyLog) :: [])).2 = (⟨5, 70, 160⟩ : DailyLog) :: [] ∧
    ∀ snap ∈ (runStatusList ⟨300, 120⟩ 5 [some 0, none]
        ((⟨5, 70, 160⟩ : DailyLog) :: [])).1, snap.total_active_seconds = 70 :=
  status_read_only ⟨300, 120⟩ ((⟨5, 10, 100⟩ : DailyLog) :: []) 5 160 (some 0)
    ((⟨5, 70, 160⟩ : DailyLog) :: [], 70) rfl [some 0, none]

/-- C4: the CLI update command exits 0 when the tracker update completes, and
exits 1 with the failure cause logged when it raises. -/
theorem cli_update_exit_codes :
    cli_update (Except.ok ()) = (0, []) ∧
    ∀ e : String, (cli_update (Except.error e)).1 = 1 ∧
      (cli_update (Except.error e)).2 = ["Update error: " ++ e] :=
  ⟨rfl, fun _ => ⟨rfl, rfl⟩⟩

/-- C5 counterexample: with the timer not installed the status command exits 1
even though the Store read succeeds (the Store is reachable), contradicting
"exit code 0 in every execution in which the Store can be reached". -/
theorem cli_status_nonzero_with_store_reachable :
    cli_status false (Except.ok ("Active", 60)) (Except.ok ⟨5, 60, 100⟩) = 1 ∧
    (Except.ok (⟨5, 60, 100⟩ : DailyLog) : Except String DailyLog).isOk = true :=
  ⟨rfl, rfl⟩

/-- C5 amended: the status command exits 0 exactly when the timer is installed
and both the tracker status query and the Store read succeed; it also exits
non-zero when the timer is not installed or the tracker query fails, even with
the Store reachable. -/
theorem cli_status_exit_iff (ti : Bool) (trackerR : Except String (String × Nat))
    (dbR : Except String DailyLog) :
    cli_status ti trackerR dbR = 0 ↔
      ti = true ∧ trackerR.isOk = true ∧ dbR.isOk = true := by
  cases ti <;> cases trackerR <;> cases dbR <;>
    simp [cli_status, Except.isOk, Except.toBool]

/-- C9: the status command renders today's total as two zero-padded fields
with hours = T / 3600 and minutes = (T % 3600) / 60 by integer arithmetic, the
displayed value truncates (never rounds up) the stored seconds, the minutes
field always has exactly two characters, and `last_update` is rendered
hour:minute; single-digit values are zero-padded. -/
theorem status_summary_rendering (T lastH lastM n : Nat) (hn : n < 10) :
    statusSummary T lastH lastM =
      ["  Total active time: " ++ pad2 (T / 3600) ++ ":" ++ pad2 (T % 3600 / 60),
       "  Last update: " ++ pad2 lastH ++ ":" ++ pad2 lastM] ∧
    (T / 3600) * 3600 + (T % 3600 / 60) * 60 ≤ T ∧
    T < (T / 3600) * 3600 + (T % 3600 / 60) * 60 + 60 ∧
    (pad2 (T % 3600 / 60)).length = 2 ∧
    pad2 n = "0" ++ toString n := by
  have hb : ∀ m : Nat, m < 60 → (pad2 m).length = 2 := by decide
  have hm : T % 3600 / 60 < 60 := by omega
  refine ⟨rfl, by omega, by omega, hb _ hm, ?_⟩
  simp [pad2, hn]

/-- Witness for C9 at T = 3725 s (1 h, 2 min), last update 09:15, and the
single-digit value 5. -/
theorem status_summary_rendering_witness :
    statusSummary 3725 9 15 =
      ["  Total active time: " ++ pad2 (3725 / 3600) ++ ":" ++
        pad2 (3725 % 3600 / 60),
       "  Last update: " ++ pad2 9 ++ ":" ++ pad2 15] ∧
    (3725 / 3600) * 3600 + (3725 % 3600 / 60) * 60 ≤ 3725 ∧
    3725 < (3725 / 3600) * 3600 + (3725 % 3600 / 60) * 60 + 60 ∧
    (pad2 (3725 % 3600 / 60)).length = 2 ∧
    pad2 5 = "0" ++ toString 5 :=
  status_summary_rendering 3725 9 15 5 (by decide)

/-- C6: a missing or invalid configuration makes the MQTT entry points (daemon
start and one-shot publish) print the fatal report and exit 1 with no broker
connection attempted, and the configuration-display command never attempts a
connection, rendering the configuration on success. -/
theorem config_errors_fatal_before_connect (e : ConfigError)
    (startOk connectOk pubOk : Bool)
    (cfgR : Except ConfigError PublishConfig) (c : PublishConfig) :
    ((mqtt_start (Except.error e) startOk).1 = 1 ∧
      (mqtt_start (Except.error e) startOk).2.1 = [] ∧
      errLine e ∈ (mqtt_start (Except.error e) startOk).2.2) ∧
    ((mqtt_publish (Except.error e) connectOk pubOk).1 = 1 ∧
      (mqtt_publish (Except.error e) connectOk pubOk).2.1 = [] ∧
      errLine e ∈ (mqtt_publish (Except.error e) connectOk pubOk).2.2) ∧
    (mqtt_status cfgR).2.1 = [] ∧
    mqtt_status (Except.ok c) = (0, [], renderConfig c) := by
  refine ⟨⟨rfl, rfl, ?_⟩, ⟨rfl, rfl, ?_⟩, ?_, rfl⟩
  · simp [mqtt_start]
  · simp [mqtt_publish]
  · cases cfgR <;> rfl

/-- C7: the one-shot publish with a loaded configuration performs exactly
connect, publish once, disconnect — on connect failure it exits 1 having only
attempted the connection (no publish), and on connect success the trace is
exactly [connect, publish, disconnect] with exit code 0 iff the publish
succeeded. -/
theorem mqtt_publish_connect_publish_disconnect (c : PublishConfig)
    (pubOk : Bool) :
    ((mqtt_publish (Except.ok c) false pubOk).1 = 1 ∧
      (mqtt_publish (Except.ok c) false pubOk).2.1 = [MqttEvent.connectAttempt]) ∧
    ((mqtt_publish (Except.ok c) true pubOk).2.1 =
        [MqttEvent.connectAttempt, MqttEvent.publishMsg, MqttEvent.disconnect] ∧
      ((mqtt_publish (Except.ok c) true pubOk).1 = 0 ↔ pubOk = true)) := by
  cases pubOk <;> simp [mqtt_publish]

/-- C8 counterexample: with configured topic prefix `"custom"` the published
topic is `custom/myhost/status` while the Home Assistant configuration's state
topic is `worktracker/myhost/status`, so the generated state topic does not
equal the configured prefix followed by `/myhost/status`. -/
theorem ha_topic_ignores_configured_prefix :
    statusTopic "custom" "myhost" = "custom/myhost/status" ∧
    ha_state_topic "myhost" = "worktracker/myhost/status" ∧
    ha_state_topic "myhost" ≠ statusTopic "custom" "myhost" := by
  refine ⟨rfl, rfl, ?_⟩
  decide

/-- C8 amended: the published status topic equals the configured topic prefix
followed by "/", the host, and "/status"; the Home Assistant configuration's
state topic is the literal `worktracker/<host>/status` — it appears in the
generated YAML and matches the published topic exactly when the configured
prefix is `"worktracker"` (the default), not for every configured prefix. -/
theorem published_and_ha_state_topics (tp h a : String)
    (htp : tp = "worktracker") :
    statusTopic tp h = tp ++ "/" ++ h ++ "/status" ∧
    ha_state_topic h = "worktracker/" ++ h ++ "/status" ∧
    statusTopic tp h = ha_state_topic h ∧
    containsSub (generate_yaml_config a (some h)) (ha_state_topic h) := by
  subst htp
  refine ⟨rfl, rfl, rfl, ?_⟩
  exact ⟨yamlSeg0 ++ ha_unique_id h ++ yamlSeg1,
    yamlSeg2 ++ h ++ yamlSeg3 ++ h ++ yamlSeg4,
    by simp [generate_yaml_config, String.append_assoc]⟩

/-- Witness for the amended C8 at host `myhost`, ambient hostname `amb`, and
the default prefix. -/
theorem published_and_ha_state_topics_witness :
    statusTopic "worktracker" "myhost" =
      "worktracker" ++ "/" ++ "myhost" ++ "/status" ∧
    ha_state_topic "myhost" = "worktracker/" ++ "myhost" ++ "/status" ∧
    statusTopic "worktracker" "myhost" = ha_state_topic "myhost" ∧
    containsSub (generate_yaml_config "amb" (some "myhost"))
      (ha_state_topic "myhost") :=
  published_and_ha_state_topics "worktracker" "myhost" "amb" rfl

/-- C10: for a non-None hostname the generated YAML is a pure function of the
hostname — identical for any two ambient hostname values, so no ambient lookup
can influence it — it contains `worktracker/<h>/status` as the state topic and
`worktracker_<h>_daily_time` as the unique id, and the ambient hostname is
used exactly when the argument is `None`. -/
theorem generate_yaml_config_deterministic (h a1 a2 a : String) :
    generate_yaml_config a1 (some h) = generate_yaml_config a2 (some h) ∧
    containsSub (generate_yaml_config a1 (some h))
      ("worktracker/" ++ h ++ "/status") ∧
    containsSub (generate_yaml_config a1 (some h))
      ("worktracker_" ++ h ++ "_daily_time") ∧
    generate_yaml_config a none = generate_yaml_config a (some a) := by
  refine ⟨rfl, ?_, ?_, rfl⟩
  · exact ⟨yamlSeg0 ++ ha_unique_id h ++ yamlSeg1,
      yamlSeg2 ++ h ++ yamlSeg3 ++ h ++ yamlSeg4,
      by simp [generate_yaml_config, ha_state_topic, String.append_assoc]⟩
  · exact ⟨yamlSeg0,
      yamlSeg1 ++ ha_state_topic h ++ yamlSeg2 ++ h ++ yamlSeg3 ++ h ++ yamlSeg4,
      by simp [generate_yaml_config, ha_unique_id, String.append_assoc]⟩
